import Mathlib

/-!
Verification development for the tallysheet document-generation service
(`generateWord.py`): a shallow embedding of its formatting helpers, image
inserter, numeric validator and the two HTTP endpoint handlers, together
with theorems about their behaviour.
-/

namespace Tallysheet

/-- The single-quote character, used in validator error messages. -/
def squote : String := String.singleton (Char.ofNat 39)

/-- Whitespace characters recognised by Python `str.strip()` (ASCII range:
space, tab, newline, carriage return, vertical tab, form feed). -/
def isPySpace (c : Char) : Bool :=
  c == ' ' || c == Char.ofNat 9 || c == Char.ofNat 10 || c == Char.ofNat 13
    || c == Char.ofNat 11 || c == Char.ofNat 12

/-- Embedding of Python `str.strip()`: remove whitespace from both ends. -/
def pyStrip (s : String) : String :=
  String.mk (((s.toList.dropWhile isPySpace).reverse.dropWhile isPySpace).reverse)

/-- A run of digits possibly containing single underscores strictly between
digits, continuing a run whose previous character was a digit (CPython's
digit-grouping rule for numeric literals accepted by `int()` and `float()`). -/
def digitsUAux : List Char → Bool
  | [] => true
  | [c] => c.isDigit
  | c :: d :: rest =>
    if c.isDigit then digitsUAux (d :: rest)
    else if c == '_' then d.isDigit && digitsUAux rest
    else false

/-- A non-empty digit run with single underscores strictly between digits. -/
def digitsU : List Char → Bool
  | [] => false
  | c :: rest => c.isDigit && digitsUAux rest

/-- Drop one leading sign character, if present. -/
def dropSign : List Char → List Char
  | [] => []
  | c :: rest => if c == '+' || c == '-' then rest else c :: rest

/-- Split at the first exponent marker (`e` or `E`), if any. -/
def splitExp : List Char → List Char × Option (List Char)
  | [] => ([], none)
  | c :: rest =>
    if c == 'e' || c == 'E' then ([], some rest)
    else
      let r := splitExp rest
      (c :: r.1, r.2)

/-- Split at the first decimal point, if any. -/
def splitDot : List Char → List Char × Option (List Char)
  | [] => ([], none)
  | c :: rest =>
    if c == '.' then ([], some rest)
    else
      let r := splitDot rest
      (c :: r.1, r.2)

/-- Mantissa of a Python float literal: digits, or digits `.` digits with at
least one digit on one side of the point. -/
def mantissaOK (cs : List Char) : Bool :=
  match splitDot cs with
  | (ds, none) => digitsU ds
  | (intPart, some frac) =>
    if intPart.isEmpty then digitsU frac
    else if frac.isEmpty then digitsU intPart
    else digitsU intPart && digitsU frac

/-- Exponent part of a Python float literal: optional sign then digits. -/
def expPartOK (cs : List Char) : Bool := digitsU (dropSign cs)

/-- Embedding of acceptance by CPython `float()` on an already-stripped
string (ASCII level): optional sign, then case-insensitive `inf`, `infinity`
or `nan`, or a mantissa with optional exponent. -/
def pythonFloatAccepts (s : String) : Bool :=
  let cs := dropSign s.toList
  let low := cs.map Char.toLower
  if low == "inf".toList || low == "infinity".toList || low == "nan".toList then
    true
  else
    match splitExp cs with
    | (mant, none) => mantissaOK mant
    | (mant, some ex) => mantissaOK mant && expPartOK ex

/-- Embedding of acceptance by CPython `int()` (base 10) on an
already-stripped string (ASCII level): optional sign then digits. -/
def pythonIntAccepts (s : String) : Bool := digitsU (dropSign s.toList)

/-- Parse attempt of the validator: `int(s)` when the rule is declared
integer, else `float(s)`; `true` means no exception is raised. -/
def parseOk (is_int : Bool) (s : String) : Bool :=
  if is_int then pythonIntAccepts s else pythonFloatAccepts s

/-- A run of `n` underscore characters, Python `"_" * n`. -/
def underscores (n : Nat) : String := String.mk (List.replicate n '_')

/-- Embedding of `format_input_text`: the value unchanged when non-empty
after stripping, else a placeholder run of underscores. -/
def format_input_text (value : Option String) (placeholder_length : Nat) : String :=
  match value with
  | none => underscores placeholder_length
  | some v => if pyStrip v == "" then underscores placeholder_length else v

/-- `format_input_text` at its default placeholder length of 6. -/
def format_input_text_default (value : Option String) : String :=
  format_input_text value 6

/-- Embedding of `format_checkbox_as_X`: `"X"` when the value is non-empty
after stripping, else a single underscore. -/
def format_checkbox_as_X (value : Option String) : String :=
  match value with
  | none => "_"
  | some v => if pyStrip v == "" then "_" else "X"

/-- A numeric-validation rule: a field name and whether the field is
declared integer (`int()`) rather than real-valued (`float()`). -/
structure Rule where
  field : String
  is_int : Bool
deriving DecidableEq

/-- A validation error record `{"field": ..., "msg": ...}`. -/
structure ErrRec where
  field : String
  msg : String
deriving DecidableEq

/-- The submitted form, as the lookup `form.get(field)`: `none` covers both
a missing key and an explicit `None` value. -/
def FieldMap : Type := String → Option String

/-- The validator's error message
`Expected {integer|number} but got '{s}'`. -/
def expectedMsg (is_int : Bool) (s : String) : String :=
  "Expected " ++ (if is_int then "integer" else "number")
    ++ " but got " ++ squote ++ s ++ squote

/-- Embedding of `validate_numeric_fields`: for each rule in order, skip an
absent or blank field, otherwise attempt the declared parse on the stripped
text and collect an error record on failure. -/
def validate_numeric_fields (form : FieldMap) : List Rule → List ErrRec
  | [] => []
  | r :: rs =>
    match form r.field with
    | none => validate_numeric_fields form rs
    | some v =>
      let s := pyStrip v
      if s == "" then validate_numeric_fields form rs
      else if parseOk r.is_int s then validate_numeric_fields form rs
      else { field := r.field, msg := expectedMsg r.is_int s }
             :: validate_numeric_fields form rs

/-- A rule passes when its field is absent, blank after stripping, or parses
under the declared numeric kind. -/
def rulePasses (form : FieldMap) (r : Rule) : Bool :=
  match form r.field with
  | none => true
  | some v => pyStrip v == "" || parseOk r.is_int (pyStrip v)

/-- The error record the validator emits for a failing rule. -/
def errOf (form : FieldMap) (r : Rule) : ErrRec :=
  { field := r.field, msg := expectedMsg r.is_int (pyStrip ((form r.field).getD "")) }

/-- A source for the image inserter: raw byte content or a filesystem path. -/
inductive ImageSource where
  | bytes (content : List Nat)
  | path (p : String)
deriving DecidableEq

/-- Python truthiness test `not image_bytes_or_path` on the optional source:
`None`, empty byte content and the empty path string are all falsy. -/
def sourceFalsy : Option ImageSource → Bool
  | none => true
  | some (.bytes b) => b.isEmpty
  | some (.path p) => p.isEmpty

/-- The content of a table cell after `_insert_image_in_cell` ran on it. -/
inductive CellOutcome where
  | placeholderNoImage
  | embeddedImage (src : ImageSource)
  | placeholderError
deriving DecidableEq

/-- The text content of a cell outcome: an embedded picture carries no text,
the placeholders carry their italic captions. -/
def cellText : CellOutcome → String
  | .placeholderNoImage => "(no image)"
  | .embeddedImage _ => ""
  | .placeholderError => "(error inserting image)"

/-- Embedding of `_insert_image_in_cell`. `decodeOk` stands for the opaque
image library: it reports whether decoding and embedding the given source
succeeds; any failure is caught and replaced by the error placeholder, and a
falsy source takes the no-image branch before any decode attempt. -/
def insert_image_in_cell (decodeOk : ImageSource → Bool)
    (source : Option ImageSource) : CellOutcome :=
  if sourceFalsy source then .placeholderNoImage
  else
    match source with
    | none => .placeholderNoImage
    | some src => if decodeOk src then .embeddedImage src else .placeholderError

/-- The fixed numeric rule table of the full-section endpoint, in source
order: every coordinate, elevation, water, quality, thickness and lab field
is real-valued, and only the flood-duration day count is integer. -/
def numeric_rules : List Rule :=
  [⟨"latitude_derajat", false⟩,
   ⟨"latitude_menit", false⟩,
   ⟨"latitude_detik", false⟩,
   ⟨"longitude_derajat", false⟩,
   ⟨"longitude_menit", false⟩,
   ⟨"longitude_detik", false⟩,
   ⟨"elevasi_lahan", false⟩,
   ⟨"kedalaman_air_tanah", false⟩,
   ⟨"genangan", false⟩,
   ⟨"banjir_lama_hari", true⟩,
   ⟨"banjir_ketinggian_air", false⟩,
   ⟨"tinggi_muka_air_saluran", false⟩,
   ⟨"kualitas_air_tanah_ph", false⟩,
   ⟨"kualitas_air_saluran_ph", false⟩,
   ⟨"kualitas_air_tanah_ec", false⟩,
   ⟨"kualitas_air_saluran_ec", false⟩,
   ⟨"kualitas_air_tanah_tds", false⟩,
   ⟨"kualitas_air_saluran_tds", false⟩,
   ⟨"substratum_tanah_liat_ph", false⟩,
   ⟨"substratum_tanah_liat_ec", false⟩,
   ⟨"ketebalan_gambut_cm", false⟩,
   ⟨"kondisi_tanaman_subsiden_cm", false⟩,
   ⟨"hujan_lama_kejadian_jam", false⟩,
   ⟨"porositas_bobot_isi", false⟩,
   ⟨"kelengasan_kadar_air", false⟩,
   ⟨"c_organik", false⟩]

/-- An HTTP response of a handler: a JSON error body whose `detail` key
holds the error records, or a file download. -/
inductive Response where
  | json (status : Nat) (detail : List ErrRec)
  | file (status : Nat) (media_type : String) (filename : String)
      (doc : List String)
deriving DecidableEq

/-- The observable outcome of one request: the response, whether a document
was constructed, and whether a temporary output file was created. -/
structure HandlerOutcome where
  response : Response
  docBuilt : Option (List String)
  tempFileCreated : Bool
deriving DecidableEq

/-- The MIME type of the returned word-processing document. -/
def docxMime : String :=
  "application/vnd.openxmlformats-officedocument.wordprocessingml.document"

/-- Modelled from the spec: the non-photo section builders
(`add_formulir_tallysheet` through `add_sketsa_lokasi_row`) are referenced
by both handlers but absent from the source file, which holds only a
placeholder comment block in their place; per the spec they are total
append operations invoked in a fixed, paper-form-mirroring order, so the
built document is modelled as the ordered list of appended section blocks,
ending with the two photo blocks whose builders the source does contain. -/
def buildDoc : List String :=
  ["formulir_tallysheet", "elevasi_lahan", "kondisi_air_tanah",
   "tutupan_lahan", "flora_fauna", "drainase", "kualitas_air",
   "substratum_tanah_liat", "tipe_luapan", "ketebalan_gambut",
   "substratum_bawah_gambut", "perkembangan_kerusakan",
   "informasi_kebakaran", "analisis_lab_header", "porositas", "kelengasan",
   "c_organik", "sketsa_lokasi", "foto_lapangan",
   "additional_photo_sections"]

/-- Embedding of the `POST /generate-full-section` handler: validate the
numeric fields against the fixed rule table; on any error return HTTP 422
with the error list as the `detail` body, building no document and creating
no temporary file; otherwise build the document, save it to a fresh
temporary file and return it as a download named
`tallysheet_<hexid>.docx` with the document MIME type. -/
def generate_full_section (form : FieldMap) (hexid : String) : HandlerOutcome :=
  let errors := validate_numeric_fields form numeric_rules
  if errors.isEmpty then
    { response := .file 200 docxMime ("tallysheet_" ++ hexid ++ ".docx") buildDoc,
      docBuilt := some buildDoc, tempFileCreated := true }
  else
    { response := .json 422 errors, docBuilt := none, tempFileCreated := false }

/-- Embedding of the `GET /generate-sample` handler: no request input and no
validation step; build the document from fixed internal example values,
save it to a temporary file and return it as a download named
`tallysheet_sample_<hexid>.docx`. -/
def generate_sample (hexid : String) : HandlerOutcome :=
  { response := .file 200 docxMime
      ("tallysheet_sample_" ++ hexid ++ ".docx") buildDoc,
    docBuilt := some buildDoc, tempFileCreated := true }

/-- The submission of the end-to-end example: `banjir_lama_hari` set to the
non-integer text `abc`, every other field absent. -/
def form_abc : FieldMap :=
  fun f => if f == "banjir_lama_hari" then some "abc" else none

theorem validate_eq_filter_map (form : FieldMap) (rules : List Rule) :
    validate_numeric_fields form rules
      = (rules.filter (fun r => !rulePasses form r)).map (errOf form) := by
  induction rules with
  | nil => rfl
  | cons r rs ih =>
    cases h : form r.field with
    | none =>
      have hp : rulePasses form r = true := by simp [rulePasses, h]
      simp [validate_numeric_fields, h, List.filter_cons, hp, ih]
    | some v =>
      by_cases hb : pyStrip v == ""
      · have hp : rulePasses form r = true := by simp [rulePasses, h, hb]
        simp [validate_numeric_fields, h, hb, List.filter_cons, hp, ih]
      · by_cases hpk : parseOk r.is_int (pyStrip v) = true
        · have hp : rulePasses form r = true := by
            simp [rulePasses, h, hb, hpk]
          simp [validate_numeric_fields, h, hb, hpk, List.filter_cons, hp, ih]
        · have hp : rulePasses form r = false := by
            simp [rulePasses, h, hb, hpk]
          have he : errOf form r
              = { field := r.field, msg := expectedMsg r.is_int (pyStrip v) } := by
            simp [errOf, h]
          simp [validate_numeric_fields, h, hb, hpk, List.filter_cons, hp, ih, he]

/-- C1: the numeric validator skips absent or blank fields (they contribute
no error), emits exactly one error record per failing rule carrying the
field name and the expected-kind message with the actually supplied text,
accumulates rather than failing fast (one entry per invalid field), and
returns the empty list exactly when every rule passes. -/
theorem C1_validator_error_accumulation (form : FieldMap) (rules : List Rule) :
    (validate_numeric_fields form rules = []
        ↔ ∀ r ∈ rules, rulePasses form r = true)
    ∧ (validate_numeric_fields form rules).length
        = (rules.filter (fun r => !rulePasses form r)).length
    ∧ (∀ r ∈ rules, rulePasses form r = false →
        errOf form r ∈ validate_numeric_fields form rules)
    ∧ (∀ r, errOf form r
        = { field := r.field,
            msg := expectedMsg r.is_int (pyStrip ((form r.field).getD "")) }) := by
  refine ⟨?_, ?_, ?_, fun r => rfl⟩
  · rw [validate_eq_filter_map, List.map_eq_nil_iff, List.filter_eq_nil_iff]
    simp
  · rw [validate_eq_filter_map, List.length_map]
  · intro r hr hfail
    rw [validate_eq_filter_map]
    exact List.mem_map_of_mem _ (List.mem_filter.2 ⟨hr, by simp [hfail]⟩)

theorem C1_validator_error_accumulation_witness :
    rulePasses (fun _ => some "abc") ⟨"kedalaman_air_tanah", false⟩ = false
    ∧ errOf (fun _ => some "abc") ⟨"kedalaman_air_tanah", false⟩
        ∈ validate_numeric_fields (fun _ => some "abc")
            [⟨"kedalaman_air_tanah", false⟩] :=
  ⟨by decide,
   (C1_validator_error_accumulation (fun _ => some "abc")
      [⟨"kedalaman_air_tanah", false⟩]).2.2.1
     ⟨"kedalaman_air_tanah", false⟩ (by decide) (by decide)⟩

/-- C2: when at least one numeric rule fails, the full-section handler
returns HTTP 422 whose JSON body holds the list of field/message error
records under the `detail` key, and it builds no document and creates no
temporary output file for that request. -/
theorem C2_full_section_validation_failure (form : FieldMap) (hexid : String)
    (h : validate_numeric_fields form numeric_rules ≠ []) :
    generate_full_section form hexid
      = { response := .json 422 (validate_numeric_fields form numeric_rules),
          docBuilt := none, tempFileCreated := false } := by
  simp only [generate_full_section]
  rw [if_neg]
  simp [h]

theorem C2_full_section_validation_failure_witness :
    generate_full_section form_abc "0f"
      = { response := .json 422 (validate_numeric_fields form_abc numeric_rules),
          docBuilt := none, tempFileCreated := false } :=
  C2_full_section_validation_failure form_abc "0f" (by decide)

/-- C3: the image inserter renders a cell whose text content is exactly
`(no image)` when the source is absent, and for a present non-falsy source
whose decode or embed fails for any reason it renders `(error inserting
image)` instead of propagating the failure, so an image problem never
aborts document generation. -/
theorem C3_image_inserter_placeholders :
    (∀ dOk : ImageSource → Bool,
        insert_image_in_cell dOk none = .placeholderNoImage)
    ∧ cellText .placeholderNoImage = "(no image)"
    ∧ (∀ (dOk : ImageSource → Bool) (src : ImageSource),
        sourceFalsy (some src) = false → dOk src = false →
        insert_image_in_cell dOk (some src) = .placeholderError)
    ∧ cellText .placeholderError = "(error inserting image)" := by
  refine ⟨fun dOk => rfl, rfl, ?_, rfl⟩
  intro dOk src hf hd
  simp [insert_image_in_cell, hf, hd]

theorem C3_image_inserter_placeholders_witness :
    sourceFalsy (some (.bytes [137, 80, 78])) = false
    ∧ insert_image_in_cell (fun _ => false) (some (.bytes [137, 80, 78]))
        = .placeholderError :=
  ⟨by decide,
   C3_image_inserter_placeholders.2.2.1 (fun _ => false)
     (.bytes [137, 80, 78]) (by decide) rfl⟩

/-- C4: `banjir_lama_hari` is the unique integer-declared field of the
full-section endpoint's rule table (every other listed numeric field is
real-valued); supplying `5.5` for it yields a validation error naming the
field, while `5` yields no error. -/
theorem C4_banjir_lama_hari_integer_rule :
    (numeric_rules.filter (fun r => r.is_int)).map (fun r => r.field)
        = ["banjir_lama_hari"]
    ∧ (validate_numeric_fields
        (fun f => if f == "banjir_lama_hari" then some "5.5" else none)
        numeric_rules).map (fun e => e.field) = ["banjir_lama_hari"]
    ∧ validate_numeric_fields
        (fun f => if f == "banjir_lama_hari" then some "5" else none)
        numeric_rules = [] :=
  ⟨by decide, by decide, by decide⟩

/-- C5: `format_input_text` returns the value unchanged when it is
non-empty after stripping, and otherwise a run of underscores of exactly
the placeholder length, which defaults to 6; in particular an absent value
and a whitespace-only value both give `______` and `42` is returned
unchanged. -/
theorem C5_format_input_text_spec :
    (∀ len, format_input_text none len = underscores len)
    ∧ (∀ s len, pyStrip s = "" → format_input_text (some s) len = underscores len)
    ∧ (∀ s len, pyStrip s ≠ "" → format_input_text (some s) len = s)
    ∧ (∀ len, (underscores len).length = len)
    ∧ (∀ v, format_input_text_default v = format_input_text v 6)
    ∧ format_input_text_default none = "______"
    ∧ format_input_text_default (some "   ") = "______"
    ∧ format_input_text_default (some "42") = "42" := by
  refine ⟨fun len => rfl, ?_, ?_, ?_, fun v => rfl, by decide, by decide, by decide⟩
  · intro s len h
    simp [format_input_text, h]
  · intro s len h
    simp [format_input_text, h]
  · intro len
    simp [underscores, String.length]

theorem C5_format_input_text_spec_witness :
    (pyStrip "  " = "" ∧ format_input_text (some "  ") 6 = underscores 6)
    ∧ (pyStrip "42" ≠ "" ∧ format_input_text (some "42") 6 = "42") :=
  ⟨⟨by decide, C5_format_input_text_spec.2.1 "  " 6 (by decide)⟩,
   ⟨by decide, C5_format_input_text_spec.2.2.1 "42" 6 (by decide)⟩⟩

/-- C6: `format_checkbox_as_X` returns `X` exactly when the value is
non-empty after stripping and a single underscore otherwise; `on` gives
`X`, while the empty string and an absent value give `_`. -/
theorem C6_format_checkbox_spec :
    (∀ v, format_checkbox_as_X v = "X" ↔ ∃ s, v = some s ∧ pyStrip s ≠ "")
    ∧ (∀ v, format_checkbox_as_X v = "X" ∨ format_checkbox_as_X v = "_")
    ∧ format_checkbox_as_X (some "on") = "X"
    ∧ format_checkbox_as_X (some "") = "_"
    ∧ format_checkbox_as_X none = "_" := by
  refine ⟨?_, ?_, by decide, by decide, by decide⟩
  · intro v
    cases v with
    | none => simp [format_checkbox_as_X]
    | some s =>
      by_cases h : pyStrip s = ""
      · simp [format_checkbox_as_X, h]
      · simp [format_checkbox_as_X, h]
  · intro v
    cases v with
    | none => exact Or.inr rfl
    | some s =>
      by_cases h : pyStrip s = ""
      · exact Or.inr (by simp [format_checkbox_as_X, h])
      · exact Or.inl (by simp [format_checkbox_as_X, h])

/-- C7: the sample endpoint always succeeds: for every generated hex
identifier it returns HTTP 200 with the word-processing document MIME type
and the filename `tallysheet_sample_<hexid>.docx`, building the document
from fixed internal example values with no validation step and no request
input. -/
theorem C7_sample_always_succeeds (hexid : String) :
    generate_sample hexid
      = { response := .file 200 docxMime
            ("tallysheet_sample_" ++ hexid ++ ".docx") buildDoc,
          docBuilt := some buildDoc, tempFileCreated := true } := rfl

/-- C8: the image inserter treats every falsy source as absent, not only a
missing one: empty byte content and the empty path string both render the
`(no image)` placeholder for every possible decoder — even one that always
fails — so no decode attempt is made and the error branch is never reached
for a zero-byte upload. -/
theorem C8_falsy_source_no_image :
    ∀ dOk : ImageSource → Bool,
      insert_image_in_cell dOk (some (.bytes [])) = .placeholderNoImage
      ∧ insert_image_in_cell dOk (some (.path "")) = .placeholderNoImage :=
  fun _ => ⟨rfl, rfl⟩

/-- C9: the validator is total and order-preserving: its output is exactly
the failing rules in rule-list order, each mapped to its own error record
(so a field named by several failing rules yields one entry per such rule),
and the error list's length never exceeds the number of rules. -/
theorem C9_validator_order_and_bound (form : FieldMap) (rules : List Rule) :
    validate_numeric_fields form rules
        = (rules.filter (fun r => !rulePasses form r)).map (errOf form)
    ∧ (validate_numeric_fields form rules).length ≤ rules.length := by
  refine ⟨validate_eq_filter_map form rules, ?_⟩
  rw [validate_eq_filter_map, List.length_map]
  exact List.length_filter_le _ _

/-- C10: a real-valued rule passes exactly when the stripped text is empty
or accepted by Python `float()`, so the non-empty values `nan`, `inf`,
`1e5` and `+3.` produce no validation error; and the integer rule accepts
surrounding whitespace and an explicit sign, so ` +5 ` passes. -/
theorem C10_python_numeric_acceptance :
    (∀ (form : FieldMap) (r : Rule), r.is_int = false →
        rulePasses form r
          = (match form r.field with
             | none => true
             | some v => pyStrip v == "" || pythonFloatAccepts (pyStrip v)))
    ∧ validate_numeric_fields (fun _ => some "nan") [⟨"genangan", false⟩] = []
    ∧ validate_numeric_fields (fun _ => some "inf") [⟨"genangan", false⟩] = []
    ∧ validate_numeric_fields (fun _ => some "1e5") [⟨"genangan", false⟩] = []
    ∧ validate_numeric_fields (fun _ => some "+3.") [⟨"genangan", false⟩] = []
    ∧ validate_numeric_fields (fun _ => some " +5 ")
        [⟨"banjir_lama_hari", true⟩] = [] := by
  refine ⟨?_, by decide, by decide, by decide, by decide, by decide⟩
  intro form r h
  simp only [rulePasses, parseOk, h]
  rfl

theorem C10_python_numeric_acceptance_witness :
    rulePasses (fun _ => some "2.5kg") ⟨"genangan", false⟩
      = (pyStrip "2.5kg" == "" || pythonFloatAccepts (pyStrip "2.5kg")) :=
  C10_python_numeric_acceptance.1 (fun _ => some "2.5kg")
    ⟨"genangan", false⟩ rfl

end Tallysheet
